import Mathlib

/-
Verification of the risk-management and autonomy-governance engine in
Backend/app/services/risk_management_service.py.

Modelling conventions, used throughout:
- Python floats are modelled as exact rationals (ℚ); decimal literals of the
  source such as 0.45 or 0.7 are taken at their decimal value.
- datetime values are modelled as rational timestamps (seconds); the current
  time is passed explicitly where the source calls datetime.now().
- Python dictionaries keyed by user id are modelled as functions out of
  String; reads through dict.get with a default are modelled by a total
  function where the source never distinguishes a missing key from the
  default value.
- The SHA-256 digest of the canonical JSON serialization of the fingerprint
  payload is modelled by the payload itself: the serialization used by the
  source (sorted keys, fixed separators) is injective on payloads, and the
  model treats the hash as collision free, so digest equality is payload
  equality.
-/

namespace RiskGov

/-- A Python value as it may appear in the trade-parameter, deep-study and
paper-summary dictionaries the service receives: None, a bool, an int, a
float (by its rational value) or a string. -/
inductive PVal where
  | pnone
  | boolv (b : Bool)
  | intv (n : ℤ)
  | fl (q : ℚ)
  | strv (s : String)
  deriving DecidableEq

/-- Value of a list of decimal digit characters. -/
def digitsVal (cs : List Char) : ℕ :=
  cs.foldl (fun a c => a * 10 + (c.toNat - 48)) 0

/-- Parse of an unsigned decimal literal (digits, optional decimal point):
the forms of Python float() used by the service. Exponent forms and the
special words inf and nan are outside the model and count as unparseable. -/
def parseUnsignedDec (cs : List Char) : Option ℚ :=
  let intPart := cs.takeWhile (fun c => c != '.')
  let rest := cs.dropWhile (fun c => c != '.')
  if !(intPart.all Char.isDigit) then none
  else
    match rest with
    | [] => if intPart.isEmpty then none else some (digitsVal intPart)
    | _ :: frac =>
        if frac.all Char.isDigit && !(intPart.isEmpty && frac.isEmpty) then
          some ((digitsVal intPart : ℚ) + (digitsVal frac : ℚ) / (10 : ℚ) ^ frac.length)
        else none

/-- Python float() on an already stripped string: optional sign, then an
unsigned decimal literal. -/
def pyParseFloat (s : String) : Option ℚ :=
  match s.data with
  | [] => none
  | '+' :: rest => parseUnsignedDec rest
  | '-' :: rest => (parseUnsignedDec rest).map (fun q => -q)
  | cs => parseUnsignedDec cs

/-- Embeds RiskManagementService._to_float: None gives the fallback, ints,
floats and bools (bool is an int subclass in Python) convert directly, and a
string is stripped, has percent signs removed and is parsed, falling back on
failure. -/
def to_float (value : Option PVal) (fallback : ℚ) : ℚ :=
  match value with
  | none => fallback
  | some PVal.pnone => fallback
  | some (PVal.boolv b) => if b then 1 else 0
  | some (PVal.intv n) => (n : ℚ)
  | some (PVal.fl q) => q
  | some (PVal.strv s) => (pyParseFloat ((s.trim).replace ("%") (""))).getD fallback

/-- Python truthiness of a dictionary value; a missing key read through
dict.get with default False/None is the none case. -/
def truthy (value : Option PVal) : Bool :=
  match value with
  | none => false
  | some PVal.pnone => false
  | some (PVal.boolv b) => b
  | some (PVal.intv n) => decide (n ≠ 0)
  | some (PVal.fl q) => decide (q ≠ 0)
  | some (PVal.strv s) => decide (s ≠ "")

/-- Python str() of a dictionary value. Floats are rendered through the
rational ToString instance; no property proved here inspects the rendering
of a non-string value beyond it differing from the fixed uppercase keywords
the validator compares against. -/
def pyStr (value : PVal) : String :=
  match value with
  | PVal.pnone => "None"
  | PVal.boolv true => "True"
  | PVal.boolv false => "False"
  | PVal.intv n => toString n
  | PVal.fl q => toString q
  | PVal.strv s => s

/-- Python round(q, 8), as used on float fields of the fingerprint payload
(round-half-to-even of CPython differs from round-half-up only at exact
ties, which no statement below evaluates at). -/
def round8 (q : ℚ) : ℚ :=
  ((round (q * 100000000) : ℤ) : ℚ) / 100000000

/-- Python abs on a rational. -/
def rabs (q : ℚ) : ℚ := if q < 0 then -q else q

/-- The trade-parameter dictionary; none is a missing key. -/
structure TradeParams where
  pair : Option PVal := none
  action : Option PVal := none
  entry_price : Option PVal := none
  stop_loss : Option PVal := none
  take_profit : Option PVal := none
  position_size : Option PVal := none
  risk_percent : Option PVal := none
  is_paper_trade : Option PVal := none
  broker_fail_safe_confirmed : Option PVal := none
  account_id : Option PVal := none
  server_side_stop_loss : Option PVal := none
  server_side_take_profit : Option PVal := none
  deriving DecidableEq

/-- bool(trade_params.get("is_paper_trade", False)). -/
def is_paper_of (p : TradeParams) : Bool := truthy p.is_paper_trade

/-- The normalized fingerprint payload of _normalize_trade_fingerprint_payload:
one slot per whitelisted key, none when the key is absent from the
trade-parameter dictionary. -/
structure FingerprintPayload where
  pair : Option PVal
  action : Option PVal
  entry_price : Option PVal
  stop_loss : Option PVal
  take_profit : Option PVal
  position_size : Option PVal
  risk_percent : Option PVal
  is_paper_trade : Option PVal
  deriving DecidableEq

/-- Normalization applied to each present payload value: floats are rounded
to 8 decimal places, every other value is kept as is. -/
def normalizeVal (v : PVal) : PVal :=
  match v with
  | PVal.fl q => PVal.fl (round8 q)
  | v => v

/-- Embeds _normalize_trade_fingerprint_payload. -/
def normalize_trade_fingerprint_payload (p : TradeParams) : FingerprintPayload where
  pair := p.pair.map normalizeVal
  action := p.action.map normalizeVal
  entry_price := p.entry_price.map normalizeVal
  stop_loss := p.stop_loss.map normalizeVal
  take_profit := p.take_profit.map normalizeVal
  position_size := p.position_size.map normalizeVal
  risk_percent := p.risk_percent.map normalizeVal
  is_paper_trade := p.is_paper_trade.map normalizeVal

/-- Embeds _trade_fingerprint; per the conventions above the SHA-256 digest
of the sorted JSON serialization is modelled by the normalized payload
itself. -/
def trade_fingerprint (p : TradeParams) : FingerprintPayload :=
  normalize_trade_fingerprint_payload p

/-- One entry of pending_explain_tokens. -/
structure TokenData where
  user_id : String
  fingerprint : FingerprintPayload
  created_at : ℚ
  expires_at : ℚ
  used : Bool
  used_at : Option ℚ := none
  deriving DecidableEq

/-- The pending_explain_tokens dictionary, as an association list from token
string to token data. -/
def TokenStore : Type := List (String × TokenData)

/-- Dictionary lookup pending_explain_tokens.get(token). -/
def lookupTok (store : TokenStore) (t : String) : Option TokenData :=
  match store with
  | [] => none
  | (k, v) :: rest => if k = t then some v else lookupTok rest t

/-- Dictionary removal pending_explain_tokens.pop(token, None). -/
def popTok (store : TokenStore) (t : String) : TokenStore :=
  match store with
  | [] => []
  | (k, v) :: rest => if k = t then popTok rest t else (k, v) :: popTok rest t

/-- Dictionary assignment pending_explain_tokens[token] = data. -/
def setTok (store : TokenStore) (t : String) (td : TokenData) : TokenStore :=
  (t, td) :: popTok store t

/-- The RiskLimits dataclass. -/
structure RiskLimits where
  max_trade_size : ℚ
  daily_loss_limit : ℚ
  max_open_positions : ℤ
  max_drawdown_percent : ℚ
  mandatory_stop_loss : Bool := true
  mandatory_take_profit : Bool := true
  kill_switch_enabled : Bool := true
  deriving DecidableEq

/-- The TradeExecution dataclass. -/
structure TradeExecution where
  trade_id : String
  user_id : String
  pair : String
  action : String
  entry_price : ℚ
  stop_loss : ℚ
  take_profit : ℚ
  position_size : ℚ
  timestamp : ℚ
  status : String
  exit_price : Option ℚ := none
  profit_loss : Option ℚ := none
  reason : Option String := none
  is_paper_trade : Bool := false
  deriving DecidableEq

/-- The DailyTradingStats dataclass. -/
structure DailyTradingStats where
  date : String
  total_trades : ℤ := 0
  winning_trades : ℤ := 0
  losing_trades : ℤ := 0
  total_profit_loss : ℚ := 0
  max_drawdown : ℚ := 0
  trades : List TradeExecution := []
  kill_switch_triggered : Bool := false
  deriving DecidableEq

/-- The ProbationPolicy dataclass with its defaults. -/
structure ProbationPolicy where
  min_paper_trades : ℤ := 20
  min_win_rate_percent : ℚ := 55
  max_drawdown_percent : ℚ := 12
  min_active_days : ℤ := 5
  deriving DecidableEq

/-- The RiskBudget dataclass with its defaults. -/
structure RiskBudget where
  max_risk_per_trade_percent : ℚ := 1
  daily_loss_limit_percent : ℚ := 3
  weekly_loss_limit_percent : ℚ := 8
  max_drawdown_percent : ℚ := 12
  deriving DecidableEq

/-- The AutonomyState dataclass with its defaults. -/
structure AutonomyState where
  user_id : String
  level : String := "assisted"
  probation_passed : Bool := false
  paused : Bool := false
  pause_reason : Option String := none
  pause_until : Option ℚ := none
  last_probation_check : Option ℚ := none
  recent_consensus_scores : List ℚ := []
  deriving DecidableEq

/-- The mutable attributes of RiskManagementService: the per-user
dictionaries plus the configuration flags read from the environment in
__init__. kill_switch_active, active_trades and weekly_profit_loss are only
ever read through dict.get with a default, so they are modelled as total
functions with that default. -/
structure EngineState where
  user_limits : String → Option RiskLimits
  daily_stats : String → Option DailyTradingStats
  active_trades : String → List TradeExecution
  kill_switch_active : String → Bool
  probation_policy : String → Option ProbationPolicy
  risk_budgets : String → Option RiskBudget
  weekly_profit_loss : String → String → ℚ
  autonomy_state : String → Option AutonomyState
  pending_explain_tokens : TokenStore
  require_broker_fail_safe : Bool
  require_explain_token : Bool
  explain_token_ttl_seconds : ℚ
  allow_dev_probation_bypass : Bool

/-- Replaces the stored autonomy state of one user. -/
def setAutonomy (s : EngineState) (u : String) (st : AutonomyState) : EngineState :=
  { s with autonomy_state := fun v => if v = u then some st else s.autonomy_state v }

/-- Embeds _get_or_create_probation_policy. -/
def get_or_create_probation_policy (s : EngineState) (u : String) :
    EngineState × ProbationPolicy :=
  match s.probation_policy u with
  | some p => (s, p)
  | none =>
      let p : ProbationPolicy := {}
      ({ s with probation_policy := fun v => if v = u then some p else s.probation_policy v }, p)

/-- Embeds _get_or_create_risk_budget. -/
def get_or_create_risk_budget (s : EngineState) (u : String) :
    EngineState × RiskBudget :=
  match s.risk_budgets u with
  | some b => (s, b)
  | none =>
      let b : RiskBudget := {}
      ({ s with risk_budgets := fun v => if v = u then some b else s.risk_budgets v }, b)

/-- Embeds _get_or_create_autonomy_state. -/
def get_or_create_autonomy_state (s : EngineState) (u : String) :
    EngineState × AutonomyState :=
  match s.autonomy_state u with
  | some st => (s, st)
  | none =>
      let st : AutonomyState := { user_id := u }
      (setAutonomy s u st, st)

/-- The autonomy level the engine observes for a user: the stored level, or
the freshly created default when no state exists yet (the getters create the
state with level assisted before reading it). -/
def autonomyLevelD (s : EngineState) (u : String) : String :=
  match s.autonomy_state u with
  | some st => st.level
  | none => "assisted"

/-- The paused flag the engine observes for a user, default false. -/
def autonomyPausedD (s : EngineState) (u : String) : Bool :=
  match s.autonomy_state u with
  | some st => st.paused
  | none => false

/-- The rolling consensus-score window the engine observes for a user. -/
def windowD (s : EngineState) (u : String) : List ℚ :=
  match s.autonomy_state u with
  | some st => st.recent_consensus_scores
  | none => []

/-- The probation policy the engine observes for a user, default policy when
none is stored. -/
def probationPolicyD (s : EngineState) (u : String) : ProbationPolicy :=
  (s.probation_policy u).getD {}

/-- Rank of an autonomy level in the order manual < assisted < guarded_auto
< full_auto; strings outside the four levels rank lowest. -/
def level_rank (level : String) : ℕ :=
  if level = "assisted" then 1
  else if level = "guarded_auto" then 2
  else if level = "full_auto" then 3
  else 0

/-- Embeds consume_explain_execution_token: the guard chain over the pending
token store, returning the updated store inside the engine state together
with the (ok, message) pair of the source. -/
def consume_explain_execution_token (s : EngineState) (user_id : String)
    (p : TradeParams) (token : Option String) (now : ℚ) :
    EngineState × Bool × String :=
  let required := s.require_explain_token && !(is_paper_of p)
  if !required then (s, true, "Explain token not required")
  else
    match token with
    | none => (s, false, "Missing explain execution token")
    | some t =>
        if t = "" then (s, false, "Missing explain execution token")
        else
          match lookupTok s.pending_explain_tokens t with
          | none => (s, false, "Explain execution token not found")
          | some td =>
              if td.used then (s, false, "Explain execution token already used")
              else if now > td.expires_at then
                ({ s with pending_explain_tokens := popTok s.pending_explain_tokens t },
                  false, "Explain execution token expired")
              else if td.user_id ≠ user_id then
                (s, false, "Explain execution token user mismatch")
              else if td.fingerprint ≠ trade_fingerprint p then
                (s, false, "Trade parameters changed after explain-before-execute")
              else
                ({ s with pending_explain_tokens :=
                    setTok s.pending_explain_tokens t { td with used := true, used_at := some now } },
                  true, "Explain execution token accepted")

/-- One recorded consume call: caller user id, trade parameters, token
argument and call time. -/
structure ConsumeCall where
  user_id : String
  params : TradeParams
  token : Option String
  now : ℚ

/-- A sequence of consume_explain_execution_token calls, threaded through
the engine state. -/
def consumeMany (s : EngineState) (calls : List ConsumeCall) : EngineState :=
  match calls with
  | [] => s
  | c :: rest =>
      consumeMany (consume_explain_execution_token s c.user_id c.params c.token c.now).1 rest

/-- The paper-trading summary dictionary, flattened to the paths
_extract_paper_metrics reads: the error flag, statistics.total_trades,
statistics.win_rate, statistics.max_drawdown, balance.return_percent. The
created_at ISO string and its subtraction from the current date are
abstracted into the resulting age_days value, which is 0 when created_at is
missing or unparseable and max(0, days elapsed) otherwise. -/
structure PaperSummary where
  error : Option PVal := none
  stats_total_trades : Option PVal := none
  stats_win_rate : Option PVal := none
  stats_max_drawdown : Option PVal := none
  balance_return_percent : Option PVal := none
  age_days : ℕ := 0
  deriving DecidableEq

/-- The metrics dictionary _extract_paper_metrics returns. -/
structure PaperMetrics where
  total_trades : ℚ
  win_rate_percent : ℚ
  max_drawdown_percent : ℚ
  return_percent : ℚ
  age_days : ℚ
  deriving DecidableEq

/-- Embeds _extract_paper_metrics. -/
def extract_paper_metrics (ps : PaperSummary) : PaperMetrics where
  total_trades := to_float ps.stats_total_trades 0
  win_rate_percent := to_float ps.stats_win_rate 0
  max_drawdown_percent := to_float ps.stats_max_drawdown 100
  return_percent := to_float ps.balance_return_percent 0
  age_days := (ps.age_days : ℚ)

/-- The result dictionary of evaluate_probation, projected to the fields the
claims reference; dev_bypass records the checks entry of the same name that
the dev-bypass branch of can_execute_autonomous_trade fabricates. -/
structure ProbationResult where
  passed : Bool
  reason : String
  dev_bypass : Bool := false
  deriving DecidableEq

/-- The wide-margin condition of evaluate_probation under which a passing
user is promoted straight to full_auto: at least twice the required paper
trades, ten points above the required win rate, and at most 0.7 of the
allowed drawdown. -/
def strong_probation_margin (policy : ProbationPolicy) (m : PaperMetrics) : Bool :=
  decide (m.total_trades ≥ (policy.min_paper_trades : ℚ) * 2)
    && decide (m.win_rate_percent ≥ policy.min_win_rate_percent + 10)
    && decide (m.max_drawdown_percent ≤ policy.max_drawdown_percent * (7/10))

/-- Embeds evaluate_probation: the four checks, the level promotion on pass
(manual or assisted to guarded_auto, and to full_auto on a wide margin), and
the recorded result. -/
def evaluate_probation (s : EngineState) (u : String) (paper : Option PaperSummary)
    (now : ℚ) : EngineState × ProbationResult :=
  let sp := get_or_create_probation_policy s u
  let s := sp.1
  let policy := sp.2
  let ss := get_or_create_autonomy_state s u
  let s := ss.1
  let st := ss.2
  match paper with
  | none =>
      (setAutonomy s u { st with probation_passed := false, last_probation_check := some now },
        { passed := false, reason := "Paper trading account not available" })
  | some ps =>
      if truthy ps.error then
        (setAutonomy s u { st with probation_passed := false, last_probation_check := some now },
          { passed := false, reason := "Paper trading account not available" })
      else
        let m := extract_paper_metrics ps
        let c_trades := decide (m.total_trades ≥ (policy.min_paper_trades : ℚ))
        let c_win := decide (m.win_rate_percent ≥ policy.min_win_rate_percent)
        let c_dd := decide (m.max_drawdown_percent ≤ policy.max_drawdown_percent)
        let c_age := decide (m.age_days ≥ (policy.min_active_days : ℚ))
        let passed := c_trades && c_win && c_dd && c_age
        let level1 :=
          if passed && (st.level == "manual" || st.level == "assisted") then "guarded_auto"
          else st.level
        let level2 :=
          if passed && strong_probation_margin policy m then "full_auto" else level1
        let failed_items :=
          (if c_trades then [] else ["paper_trades"]) ++ (if c_win then [] else ["win_rate"])
            ++ (if c_dd then [] else ["drawdown"]) ++ (if c_age then [] else ["age_days"])
        let reason :=
          if failed_items.isEmpty then "Probation requirements satisfied"
          else "Probation incomplete: " ++ String.intercalate (", ") failed_items
        (setAutonomy s u
            { st with probation_passed := passed
                      last_probation_check := some now
                      level := level2 },
          { passed := passed, reason := reason })

/-- The deep-study dictionary, flattened to the paths assess_anomaly_and_drift
reads: chart_volatility models chart_analysis volatility, coverage_value
models the coverage entry of source_coverage. -/
structure DeepStudy where
  chart_volatility : Option PVal := none
  consensus_score : Option PVal := none
  coverage_value : Option PVal := none
  deriving DecidableEq

/-- The result dictionary of assess_anomaly_and_drift, projected to the
fields the claims reference (the source rounds score_range to 4 places for
display; the model keeps it exact). -/
structure AssessResult where
  triggered : Bool
  reason : Option String := none
  volatility : Option String := none
  coverage : ℚ := 0
  score_range : ℚ := 0
  pause_until : Option ℚ := none
  deriving DecidableEq

/-- Python max over a nonempty list (0 on the empty list, never reached by
the source because of its nonemptiness guard). -/
def listMax (w : List ℚ) : ℚ :=
  match w with
  | [] => 0
  | x :: xs => xs.foldl max x

/-- Python min over a nonempty list. -/
def listMin (w : List ℚ) : ℚ :=
  match w with
  | [] => 0
  | x :: xs => xs.foldl min x

/-- The rolling-window update of assess_anomaly_and_drift: append the new
consensus score and keep the last 8 observations. -/
def roll_window (w : List ℚ) (c : ℚ) : List ℚ :=
  let w1 := w ++ [c]
  if w1.length > 8 then w1.drop (w1.length - 8) else w1

/-- score_range as computed by assess_anomaly_and_drift: max minus min of
the window, 0 when the window is empty. -/
def score_range_of (w : List ℚ) : ℚ :=
  if w.isEmpty then 0 else listMax w - listMin w

/-- The drift trigger of assess_anomaly_and_drift: at least 4 observations
and a score range of at least 0.28. -/
def drift_condition (w : List ℚ) : Bool :=
  decide (w.length ≥ 4) && decide (score_range_of w ≥ 28/100)

/-- Embeds assess_anomaly_and_drift: update the rolling window, evaluate the
anomaly and drift triggers, pause with a 2-hour pause_until (7200 seconds)
on trigger demoting full_auto to guarded_auto, and otherwise lift an
expired pause. -/
def assess_anomaly_and_drift (s : EngineState) (u : String) (deep : Option DeepStudy)
    (now : ℚ) : EngineState × AssessResult :=
  let ss := get_or_create_autonomy_state s u
  let s := ss.1
  let st := ss.2
  match deep with
  | none => (s, { triggered := false, reason := some ("deep_study_missing") })
  | some d =>
      let volatility := (pyStr ((d.chart_volatility).getD (PVal.strv ("unknown")))).toLower
      let consensus := to_float d.consensus_score 0
      let coverage := to_float d.coverage_value 0
      let w := roll_window st.recent_consensus_scores consensus
      let range := score_range_of w
      let anomaly := (volatility == "high") && decide (coverage < 45/100)
      let drift := drift_condition w
      if anomaly || drift then
        let reason :=
          if anomaly && drift then "Anomaly pause: high volatility + unstable model consensus"
          else if anomaly then "Anomaly pause: high volatility with low source coverage"
          else "Anomaly pause: model drift detected in consensus signals"
        let newLevel := if st.level = "full_auto" then "guarded_auto" else st.level
        (setAutonomy s u
            { st with recent_consensus_scores := w
                      paused := true
                      pause_reason := some reason
                      pause_until := some (now + 7200)
                      level := newLevel },
          { triggered := true
            reason := some reason
            volatility := some volatility
            coverage := coverage
            score_range := range
            pause_until := some (now + 7200) })
      else
        let clear :=
          match st.pause_until with
          | some pu => decide (now ≥ pu)
          | none => false
        let st2 :=
          if clear then
            { st with recent_consensus_scores := w
                      paused := false
                      pause_reason := none
                      pause_until := none }
          else { st with recent_consensus_scores := w }
        (setAutonomy s u st2,
          { triggered := false
            volatility := some volatility
            coverage := coverage
            score_range := range })

/-- The pause-clearing step of _apply_budget_and_autonomy: when no budget is
breached, a pause whose reason carries the budget prefix is lifted. -/
def clear_budget_pause (st : AutonomyState) : AutonomyState :=
  let budgetPause := st.paused &&
    (match st.pause_reason with
      | some r => decide (r ≠ "") && r.startsWith ("Budget pause:")
      | none => false)
  if budgetPause then { st with paused := false, pause_reason := none } else st

/-- The progressive near-limit downgrade of _apply_budget_and_autonomy:
full_auto falls to guarded_auto and guarded_auto to assisted when any
budget metric is at 70 percent or more of its limit. -/
def soft_downgrade (st1 : AutonomyState) (near : Bool) : AutonomyState :=
  if near then
    if st1.level = "full_auto" then { st1 with level := "guarded_auto" }
    else if st1.level = "guarded_auto" then { st1 with level := "assisted" }
    else st1
  else st1

/-- The state transition of _apply_budget_and_autonomy on one autonomy
state, given the budget and the daily, drawdown and weekly readings. The
source interpolates the offending numbers into each pause reason after its
fixed prefix; the model keeps the fixed text, on which the startsWith tests
of the source operate (no behavior reads the numeric tail). -/
def apply_budget_to_state (budget : RiskBudget) (st : AutonomyState)
    (daily_pnl max_drawdown weekly_pnl : ℚ) : AutonomyState :=
  if daily_pnl ≤ -budget.daily_loss_limit_percent then
    { st with paused := true
              pause_reason := some ("Budget pause: daily loss budget breached")
              level := "assisted" }
  else if weekly_pnl ≤ -budget.weekly_loss_limit_percent then
    { st with paused := true
              pause_reason := some ("Budget pause: weekly loss budget breached")
              level := "assisted" }
  else if max_drawdown ≥ budget.max_drawdown_percent then
    { st with paused := true
              pause_reason := some ("Budget pause: drawdown budget breached")
              level := "assisted" }
  else
    let near := decide (daily_pnl ≤ -(7/10 * budget.daily_loss_limit_percent))
      || decide (weekly_pnl ≤ -(7/10 * budget.weekly_loss_limit_percent))
      || decide (max_drawdown ≥ 7/10 * budget.max_drawdown_percent)
    soft_downgrade (clear_budget_pause st) near

/-- Embeds _apply_budget_and_autonomy: read the daily stats and the weekly
ledger, apply the budget transition to the autonomy state of the user, and
store the result. -/
def apply_budget_and_autonomy (s : EngineState) (u : String) (week_key : String) :
    EngineState :=
  let sb := get_or_create_risk_budget s u
  let s := sb.1
  let budget := sb.2
  let ss := get_or_create_autonomy_state s u
  let s := ss.1
  let st := ss.2
  let daily := s.daily_stats u
  let daily_pnl := match daily with | some d => d.total_profit_loss | none => 0
  let max_drawdown := match daily with | some d => d.max_drawdown | none => 0
  let weekly_pnl := s.weekly_profit_loss u week_key
  setAutonomy s u (apply_budget_to_state budget st daily_pnl max_drawdown weekly_pnl)

/-- The result dictionary of activate_kill_switch. -/
structure KillSwitchResult where
  success : Bool
  message : String
  trades_emergency_closed : ℕ
  timestamp : ℚ
  deriving DecidableEq

/-- Embeds activate_kill_switch: set the kill-switch flag, mark every open
trade of the user closed_emergency, and set the kill-switch flag of the
daily stats when they exist. -/
def activate_kill_switch (s : EngineState) (u : String) (now : ℚ) :
    EngineState × KillSwitchResult :=
  let s1 := { s with kill_switch_active := fun v => if v = u then true else s.kill_switch_active v }
  let trades := s1.active_trades u
  let newTrades :=
    trades.map (fun t => if t.status = "open" then { t with status := "closed_emergency" } else t)
  let closed := (trades.filter (fun t => t.status == "open")).length
  let s2 := { s1 with active_trades := fun v => if v = u then newTrades else s1.active_trades v }
  let s3 :=
    match s2.daily_stats u with
    | some d =>
        { s2 with daily_stats := fun v =>
            if v = u then some { d with kill_switch_triggered := true } else s2.daily_stats v }
    | none => s2
  (s3, { success := true
         message := "KILL SWITCH ACTIVATED - All trading disabled"
         trades_emergency_closed := closed
         timestamp := now })

/-- Python str.isalpha: nonempty and every character alphabetic. -/
def py_isalpha (s : String) : Bool :=
  decide (s ≠ "") && s.data.all Char.isAlpha

/-- Python pair.split("/", 1): split at the first slash only. -/
def split_first (s : String) : List String :=
  match s.splitOn ("/") with
  | [] => [s]
  | [a] => [a]
  | a :: rest => [a, String.intercalate ("/") rest]

/-- One early-return guard of validate_trade: when the condition holds,
fail with the message, otherwise continue with the rest of the chain. -/
def failGuard (cond : Prop) [Decidable cond] (msg : String) (next : Bool × String) :
    Bool × String :=
  if cond then (false, msg) else next

/-- The guard chain of validate_trade, in source order, producing the
(ok, reason) pair the source returns; each failGuard is one early return of
the source. The local values the source computes between checks are pure,
so they are hoisted above the chain unchanged. The source interpolates
current numbers into some failure messages; the model keeps the fixed
message text. -/
def validate_trade_check (s : EngineState) (u : String) (p : TradeParams) :
    Bool × String :=
  match s.user_limits u with
  | none => (false, "User risk limits not configured")
  | some limits =>
    let is_paper := is_paper_of p
    let action := (pyStr (p.action.getD (PVal.strv ("")))).toUpper
    let pair := (pyStr (p.pair.getD (PVal.strv ("")))).toUpper
    let position_size := to_float p.position_size (-1)
    let entry_price := to_float p.entry_price 0
    let stop_loss := to_float p.stop_loss 0
    let take_profit := to_float p.take_profit 0
    let sl_distance := if entry_price ≠ 0 then rabs ((entry_price - stop_loss) / entry_price) * 100 else 0
    let tp_distance := if entry_price ≠ 0 then rabs ((take_profit - entry_price) / entry_price) * 100 else 0
    let rr := if sl_distance > 0 then tp_distance / sl_distance else 0
    failGuard (s.kill_switch_active u = true) ("KILL SWITCH ACTIVE - All trading disabled") <|
    failGuard (s.require_broker_fail_safe = true ∧ is_paper = false ∧
        p.broker_fail_safe_confirmed ≠ some (PVal.boolv true))
      ("Broker fail-safe protection is mandatory for live trades. Set broker_fail_safe_confirmed=true.") <|
    failGuard (¬ (action = "BUY" ∨ action = "SELL")) ("Action must be BUY or SELL") <|
    failGuard (pair.length ≠ 7 ∨ ¬ (pair.contains '/')) ("Pair must be in XXX/YYY format") <|
    failGuard (¬ ((split_first pair).all (fun part => py_isalpha part && part.length == 3)))
      ("Pair must be in XXX/YYY format") <|
    failGuard (position_size ≤ 0) ("Position size must be greater than zero") <|
    failGuard (entry_price ≤ 0 ∨ stop_loss ≤ 0 ∨ take_profit ≤ 0)
      ("Entry, Stop-Loss, and Take-Profit must be greater than zero") <|
    failGuard (action = "BUY" ∧ ¬ (stop_loss < entry_price ∧ entry_price < take_profit))
      ("For BUY trades, require stop_loss < entry_price < take_profit") <|
    failGuard (action ≠ "BUY" ∧ ¬ (take_profit < entry_price ∧ entry_price < stop_loss))
      ("For SELL trades, require take_profit < entry_price < stop_loss") <|
    failGuard (sl_distance < 1/5) ("Stop-Loss too close to entry (0.2% minimum)") <|
    failGuard (sl_distance > 5) ("Stop-Loss too far from entry (5.0% maximum)") <|
    failGuard (tp_distance ≤ 0) ("Take-Profit distance is invalid") <|
    failGuard (rr < 6/5) ("Risk-reward ratio too low (minimum 1.2)") <|
    failGuard (position_size > limits.max_trade_size) ("Position size exceeds max") <|
    failGuard (((s.active_trades u).length : ℤ) ≥ limits.max_open_positions)
      ("Open positions at maximum") <|
    failGuard ((match s.daily_stats u with
        | some d => decide (d.total_profit_loss < -limits.daily_loss_limit)
        | none => false) = true)
      ("Daily loss limit reached") <|
    failGuard ((limits.mandatory_stop_loss && !(truthy p.stop_loss)) = true)
      ("Stop-Loss is mandatory but not set") <|
    failGuard ((limits.mandatory_take_profit && !(truthy p.take_profit)) = true)
      ("Take-Profit is mandatory but not set") <|
    failGuard (is_paper = false ∧ (pyStr (p.account_id.getD (PVal.strv ("")))).trim = "")
      ("Live trade requires bound broker account_id") <|
    failGuard (is_paper = false ∧ p.server_side_stop_loss = some (PVal.boolv false))
      ("Server-side Stop-Loss protection must remain enabled") <|
    failGuard (is_paper = false ∧ p.server_side_take_profit = some (PVal.boolv false))
      ("Server-side Take-Profit protection must remain enabled") <|
    (true, "Trade validation passed")

/-- Embeds validate_trade. The source method only reads engine state and
returns the (ok, reason) pair; the state-threading wrapper records that the
state is returned unchanged. -/
def validate_trade (s : EngineState) (u : String) (p : TradeParams) :
    EngineState × Bool × String :=
  (s, validate_trade_check s u p)

/-- Python `value or default` over an optional string: the default replaces
None and the empty string. -/
def str_or (v : Option String) (d : String) : String :=
  match v with
  | some r => if r = "" then d else r
  | none => d

/-- The decision triple of can_execute_autonomous_trade, with the context
dictionary projected to the fields the claims reference. -/
structure ExecDecision where
  allowed : Bool
  reason : String
  probation : Option ProbationResult := none
  autonomy_level : Option String := none
  risk_percent : Option ℚ := none
  deriving DecidableEq

/-- The effective risk-per-trade block of can_execute_autonomous_trade: the
explicit risk_percent when it parses non-negative, otherwise the entry-to-stop
distance in percent when both prices are positive, otherwise 0. -/
def effective_risk_percent (p : TradeParams) : ℚ :=
  let rp := to_float p.risk_percent (-1)
  if rp < 0 then
    let entry := to_float p.entry_price 0
    let sl := to_float p.stop_loss 0
    if entry > 0 ∧ sl > 0 then rabs ((entry - sl) / entry) * 100 else 0
  else rp

/-- The tail of can_execute_autonomous_trade after the probation gate: the
risk-per-trade budget gate followed by the anomaly gate and the admit
result. -/
def exec_after_probation (s : EngineState) (u : String) (p : TradeParams)
    (deep : Option DeepStudy) (now : ℚ) (budget : RiskBudget) (pr : ProbationResult) :
    EngineState × ExecDecision :=
  let rp := effective_risk_percent p
  if rp > budget.max_risk_per_trade_percent then
    (s, { allowed := false
          reason := "Trade risk exceeds budget"
          probation := some pr
          risk_percent := some rp })
  else
    let sa := assess_anomaly_and_drift s u deep now
    let s := sa.1
    let anomaly := sa.2
    if anomaly.triggered then
      (s, { allowed := false
            reason := str_or anomaly.reason ("Anomaly detected")
            probation := some pr })
    else
      (s, { allowed := true
            reason := "Autonomous guardrails passed"
            probation := some pr
            autonomy_level := some (autonomyLevelD s u)
            risk_percent := some rp })

/-- Embeds can_execute_autonomous_trade: budget re-derivation, expired
anomaly-pause clearing, the paused and manual gates, the probation gate
(paper path, dev bypass, or a full evaluation), then the risk and anomaly
gates of exec_after_probation. -/
def can_execute_autonomous_trade (s : EngineState) (u : String) (p : TradeParams)
    (paper : Option PaperSummary) (deep : Option DeepStudy) (now : ℚ) (week_key : String) :
    EngineState × ExecDecision :=
  let ss := get_or_create_autonomy_state s u
  let s := ss.1
  let sb := get_or_create_risk_budget s u
  let s := sb.1
  let budget := sb.2
  let s := apply_budget_and_autonomy s u week_key
  let st := (s.autonomy_state u).getD { user_id := u }
  let anomalyClear := st.paused && st.pause_until.isSome &&
    (match st.pause_reason with
      | some r => decide (r ≠ "") && r.startsWith ("Anomaly pause:")
      | none => false) &&
    (match st.pause_until with
      | some pu => decide (now ≥ pu)
      | none => false)
  let stC :=
    if anomalyClear then { st with paused := false, pause_reason := none, pause_until := none }
    else st
  let s := setAutonomy s u stC
  if stC.paused then
    (s, { allowed := false
          reason := str_or stC.pause_reason ("Autonomy paused by guardrails")
          autonomy_level := some stC.level })
  else
    let is_paper := is_paper_of p
    if is_paper = false ∧ stC.level = "manual" then
      (s, { allowed := false
            reason := "Autonomy level is manual. Enable assisted/guarded/full mode first."
            autonomy_level := some stC.level })
    else
      if is_paper then
        exec_after_probation s u p deep now budget { passed := true, reason := "Paper trade path" }
      else if s.allow_dev_probation_bypass && u.startsWith ("dev_") then
        exec_after_probation s u p deep now budget
          { passed := true, reason := "Dev probation bypass enabled", dev_bypass := true }
      else
        let sp := evaluate_probation s u paper now
        let s := sp.1
        let pr := sp.2
        if pr.passed = false then
          (s, { allowed := false
                reason := pr.reason
                probation := some pr
                autonomy_level := some stC.level })
        else exec_after_probation s u p deep now budget pr

/-- The __init__ derivation of allow_dev_probation_bypass from the
environment: the ALLOW_DEV_PROBATION_BYPASS variable when set, otherwise
DEBUG compared case-insensitively against true. -/
def dev_probation_bypass_from_env (allow_env debug_env : Option String) : Bool :=
  match allow_env with
  | none => (debug_env.getD ("")).toLower == "true"
  | some v => v.toLower == "true"

/-- A token that has either been consumed or removed: every stored entry
under this token id is marked used. -/
def usedOrGone (store : TokenStore) (t : String) : Prop :=
  ∀ td, lookupTok store t = some td → td.used = true

/-- The second proposal alters a price field of the first by an amount that
survives rounding to 8 decimal places: one of entry_price, stop_loss or
take_profit carries a float on both sides whose 8-decimal roundings
differ. -/
def priceAltered (q0 q1 : TradeParams) : Prop :=
  (∃ a b, q0.entry_price = some (PVal.fl a) ∧ q1.entry_price = some (PVal.fl b) ∧
    round8 a ≠ round8 b) ∨
  (∃ a b, q0.stop_loss = some (PVal.fl a) ∧ q1.stop_loss = some (PVal.fl b) ∧
    round8 a ≠ round8 b) ∨
  (∃ a b, q0.take_profit = some (PVal.fl a) ∧ q1.take_profit = some (PVal.fl b) ∧
    round8 a ≠ round8 b)

/-- n successive assess_anomaly_and_drift evaluations of the same deep-study
input, threading the engine state. -/
def assess_iter (u : String) (deep : Option DeepStudy) (now : ℚ) : ℕ → EngineState → EngineState
  | 0, s => s
  | Nat.succ n, s => assess_iter u deep now n (assess_anomaly_and_drift s u deep now).1

/-- An engine state with no users configured and the default environment
configuration (all fail-safes on, dev bypass off). -/
def emptyState : EngineState where
  user_limits := fun _ => none
  daily_stats := fun _ => none
  active_trades := fun _ => []
  kill_switch_active := fun _ => false
  probation_policy := fun _ => none
  risk_budgets := fun _ => none
  weekly_profit_loss := fun _ _ => 0
  autonomy_state := fun _ => none
  pending_explain_tokens := []
  require_broker_fail_safe := true
  require_explain_token := true
  explain_token_ttl_seconds := 300
  allow_dev_probation_bypass := false

/-- Concrete risk limits for the sample user. -/
def limits0 : RiskLimits where
  max_trade_size := 10000
  daily_loss_limit := 10
  max_open_positions := 5
  max_drawdown_percent := 20

/-- A concrete live BUY proposal that passes every validation gate: entry
100, stop 99.5 (0.5 percent away), target 101 (1 percent away, ratio 2). -/
def p0 : TradeParams where
  pair := some (PVal.strv ("EUR/USD"))
  action := some (PVal.strv ("BUY"))
  entry_price := some (PVal.fl 100)
  stop_loss := some (PVal.fl (199/2))
  take_profit := some (PVal.fl 101)
  position_size := some (PVal.fl 1)
  is_paper_trade := some (PVal.boolv false)
  broker_fail_safe_confirmed := some (PVal.boolv true)
  account_id := some (PVal.strv ("acct1"))

/-- The same proposal resubmitted as a paper trade. -/
def pPaper : TradeParams := { p0 with is_paper_trade := some (PVal.boolv true) }

/-- The proposal with entry price raised by 10⁻¹¹: a nonzero alteration
below the 8-decimal rounding granularity of the fingerprint. -/
def pTiny : TradeParams := { p0 with entry_price := some (PVal.fl (100 + 1/100000000000)) }

/-- The proposal with entry price raised by one cent: an alteration visible
after rounding to 8 decimal places. -/
def pCent : TradeParams := { p0 with entry_price := some (PVal.fl (100 + 1/100)) }

/-- Engine state with limits configured for user u1. -/
def valState : EngineState :=
  { emptyState with user_limits := fun v => if v = "u1" then some limits0 else none }

/-- The same state with the kill switch of u1 active. -/
def killState : EngineState :=
  { valState with kill_switch_active := fun v => v == "u1" }

/-- An unused, unexpired explain token bound to user u1 and the fingerprint
of p0. -/
def tok0 : TokenData where
  user_id := "u1"
  fingerprint := trade_fingerprint p0
  created_at := 0
  expires_at := 300
  used := false

/-- valState with tok0 pending under token id tk1. -/
def tokState : EngineState :=
  { valState with pending_explain_tokens := [("tk1", tok0)] }

/-- Engine state where u1 sits at autonomy level manual. -/
def manualState : EngineState :=
  { emptyState with autonomy_state := fun v =>
      if v = "u1" then some { user_id := "u1", level := "manual" } else none }

/-- A paper-trading summary beating the default probation policy by the wide
margin: 40 trades, 65 percent win rate, 8 percent drawdown, 10 days old. -/
def ps0 : PaperSummary where
  stats_total_trades := some (PVal.intv 40)
  stats_win_rate := some (PVal.fl 65)
  stats_max_drawdown := some (PVal.fl 8)
  age_days := 10

/-- Daily stats showing a 5 percent loss, past the default 3 percent daily
budget. -/
def dailyLoss : DailyTradingStats := { date := "2026-10-12", total_profit_loss := -5 }

/-- manualState with the daily loss breach recorded. -/
def breachState : EngineState :=
  { manualState with daily_stats := fun v => if v = "u1" then some dailyLoss else none }

/-- A sample open trade of u1. -/
def tr1 : TradeExecution where
  trade_id := "t1"
  user_id := "u1"
  pair := "EUR/USD"
  action := "BUY"
  entry_price := 100
  stop_loss := 99
  take_profit := 102
  position_size := 1
  timestamp := 0
  status := "open"

/-- A second, already closed trade of u1. -/
def tr2 : TradeExecution := { tr1 with trade_id := "t2", status := "closed" }

/-- Engine state where u1 is at full_auto, not paused, with one open and one
closed trade. -/
def fullState : EngineState :=
  { emptyState with
    autonomy_state := fun v =>
      if v = "u1" then some { user_id := "u1", level := "full_auto" } else none
    active_trades := fun v => if v = "u1" then [tr1, tr2] else [] }

/-- Engine state with the dev probation bypass enabled, as __init__ derives
it from ALLOW_DEV_PROBATION_BYPASS=true. -/
def devState : EngineState :=
  { emptyState with allow_dev_probation_bypass :=
      dev_probation_bypass_from_env (some ("true")) none }

/-- A deep-study input carrying only a consensus score of 0.5. -/
def d0 : DeepStudy := { consensus_score := some (PVal.fl (1/2)) }

/-- Reading the autonomy level right after storing a state gives the level
of the stored state. -/
theorem autonomyLevelD_setAutonomy (s : EngineState) (u : String) (st : AutonomyState) :
    autonomyLevelD (setAutonomy s u st) u = st.level := by
  unfold autonomyLevelD setAutonomy
  simp

/-- Looking a token up after a pop: gone for the popped id, unchanged
otherwise. -/
theorem lookup_popTok (store : TokenStore) (t t2 : String) :
    lookupTok (popTok store t) t2 = if t2 = t then none else lookupTok store t2 := by
  induction store with
  | nil => simp [popTok, lookupTok]
  | cons kv rest ih =>
    obtain ⟨k, v⟩ := kv
    simp only [popTok, lookupTok]
    by_cases hk : k = t
    · rw [if_pos hk, ih]
      by_cases h2 : t2 = t
      · simp [h2]
      · have ht2 : t ≠ t2 := fun hh => h2 hh.symm
        simp [hk, h2, ht2]
    · rw [if_neg hk]
      simp only [lookupTok]
      by_cases h2 : k = t2
      · have ht2 : t2 ≠ t := fun hh => hk (h2.trans hh)
        simp [h2, ht2]
      · rw [if_neg h2, ih]
        by_cases h3 : t2 = t <;> simp [h3, h2]

/-- Looking a token up after an assignment: the new data for the assigned
id, unchanged otherwise. -/
theorem lookup_setTok (store : TokenStore) (t t2 : String) (td : TokenData) :
    lookupTok (setTok store t td) t2 = if t2 = t then some td else lookupTok store t2 := by
  unfold setTok
  simp only [lookupTok]
  by_cases h2 : t = t2
  · simp [h2]
  · have ht2 : t2 ≠ t := fun hh => h2 hh.symm
    rw [if_neg h2, lookup_popTok, if_neg ht2, if_neg ht2]

/-- Every consume call preserves the used-or-gone property of every token:
the store only ever loses entries or marks them used. -/
theorem consume_preserves_usedOrGone (s : EngineState) (u : String) (p : TradeParams)
    (tok : Option String) (now : ℚ) (t : String)
    (hug : usedOrGone s.pending_explain_tokens t) :
    usedOrGone (consume_explain_execution_token s u p tok now).1.pending_explain_tokens t := by
  intro td htd
  unfold consume_explain_execution_token at htd
  dsimp only at htd
  repeat' split at htd
  all_goals (first
    | exact hug td htd
    | (dsimp only at htd
       rw [lookup_popTok] at htd
       split at htd
       · exact Option.noConfusion htd
       · exact hug td htd)
    | (dsimp only at htd
       rw [lookup_setTok] at htd
       split at htd
       · cases htd
         rfl
       · exact hug td htd))

/-- A sequence of consume calls preserves the used-or-gone property. -/
theorem consumeMany_preserves_usedOrGone (calls : List ConsumeCall) :
    ∀ (s : EngineState) (t : String), usedOrGone s.pending_explain_tokens t →
      usedOrGone (consumeMany s calls).pending_explain_tokens t := by
  induction calls with
  | nil => intro s t hug; exact hug
  | cons c rest ih =>
    intro s t hug
    exact ih _ t (consume_preserves_usedOrGone s c.user_id c.params c.token c.now t hug)

/-- Consume calls never change the explain-token policy flag. -/
theorem consume_preserves_require (s : EngineState) (u : String) (p : TradeParams)
    (tok : Option String) (now : ℚ) :
    (consume_explain_execution_token s u p tok now).1.require_explain_token =
      s.require_explain_token := by
  unfold consume_explain_execution_token
  dsimp only
  repeat' split
  all_goals rfl

/-- A sequence of consume calls never changes the explain-token policy
flag. -/
theorem consumeMany_preserves_require (calls : List ConsumeCall) :
    ∀ s : EngineState, (consumeMany s calls).require_explain_token = s.require_explain_token := by
  induction calls with
  | nil => intro s; rfl
  | cons c rest ih =>
    intro s
    rw [consumeMany, ih, consume_preserves_require]

/-- Case analysis of a required consume call: it either fails, or it found
an unused matching entry, succeeded, and stored the entry back marked
used. -/
theorem consume_required_cases (s : EngineState) (u : String) (p : TradeParams)
    (t : String) (now : ℚ)
    (hreq : s.require_explain_token = true) (hp : is_paper_of p = false) :
    (consume_explain_execution_token s u p (some t) now).2.1 = false ∨
    (∃ td, lookupTok s.pending_explain_tokens t = some td ∧ td.used = false ∧
      td.fingerprint = trade_fingerprint p ∧
      (consume_explain_execution_token s u p (some t) now).2.1 = true ∧
      (consume_explain_execution_token s u p (some t) now).1.pending_explain_tokens =
        setTok s.pending_explain_tokens t { td with used := true, used_at := some now }) := by
  unfold consume_explain_execution_token
  rw [hreq, hp]
  dsimp only
  by_cases ht : t = ""
  · rw [if_pos ht]
    exact Or.inl rfl
  · rw [if_neg ht]
    cases hlk : lookupTok s.pending_explain_tokens t with
    | none =>
      exact Or.inl rfl
    | some td =>
      dsimp only
      by_cases hused : td.used = true
      · rw [if_pos hused]
        exact Or.inl rfl
      · rw [if_neg hused]
        by_cases hexp : now > td.expires_at
        · rw [if_pos hexp]
          exact Or.inl rfl
        · rw [if_neg hexp]
          by_cases huser : td.user_id ≠ u
          · rw [if_pos huser]
            exact Or.inl rfl
          · rw [if_neg huser]
            by_cases hfp : td.fingerprint ≠ trade_fingerprint p
            · rw [if_pos hfp]
              exact Or.inl rfl
            · rw [if_neg hfp]
              refine Or.inr ⟨td, rfl, ?_, Decidable.not_not.mp hfp, rfl, rfl⟩
              cases hb : td.used
              · rfl
              · exact absurd hb hused

/-- A required consume call of a token that is used or gone always fails. -/
theorem consume_fails_used (s : EngineState) (u : String) (p : TradeParams)
    (t : String) (now : ℚ)
    (hreq : s.require_explain_token = true) (hp : is_paper_of p = false)
    (hug : usedOrGone s.pending_explain_tokens t) :
    (consume_explain_execution_token s u p (some t) now).2.1 = false := by
  rcases consume_required_cases s u p t now hreq hp with h | ⟨td, hlk, hunused, _, _, _⟩
  · exact h
  · exact absurd (hug td hlk) (by rw [hunused]; exact Bool.noConfusion)

/-- After a successful required consume, the token is used or gone in the
resulting store. -/
theorem consume_success_usedOrGone (s : EngineState) (u : String) (p : TradeParams)
    (t : String) (now : ℚ)
    (hreq : s.require_explain_token = true) (hp : is_paper_of p = false)
    (hok : (consume_explain_execution_token s u p (some t) now).2.1 = true) :
    usedOrGone (consume_explain_execution_token s u p (some t) now).1.pending_explain_tokens t := by
  rcases consume_required_cases s u p t now hreq hp with h | ⟨td, hlk, hunused, hfp, _, hstore⟩
  · rw [h] at hok
    exact Bool.noConfusion hok
  · intro td2 htd2
    rw [hstore, lookup_setTok, if_pos rfl] at htd2
    cases htd2
    rfl

/-- A required consume call whose stored fingerprint disagrees with the
fingerprint of the submitted proposal always fails. -/
theorem consume_fails_fingerprint (s : EngineState) (u : String) (p : TradeParams)
    (t : String) (td : TokenData) (now : ℚ)
    (hreq : s.require_explain_token = true) (hp : is_paper_of p = false)
    (hlk : lookupTok s.pending_explain_tokens t = some td)
    (hfp : td.fingerprint ≠ trade_fingerprint p) :
    (consume_explain_execution_token s u p (some t) now).2.1 = false := by
  rcases consume_required_cases s u p t now hreq hp with h | ⟨td2, hlk2, _, hfp2, _, _⟩
  · exact h
  · rw [hlk] at hlk2
    cases hlk2
    exact absurd hfp2 hfp

/-- Claim C3 (amended): once a required consume call (explain tokens on,
non-paper proposal) has succeeded for a token, every later required consume
call with the same token fails, regardless of interleaved consume calls; a
call for which the token is not required returns success without touching
the token store. -/
theorem consume_token_single_success (s : EngineState) (u1 : String) (p1 : TradeParams)
    (t : String) (now1 : ℚ) (calls : List ConsumeCall) (u2 : String) (p2 : TradeParams)
    (now2 : ℚ)
    (hreq : s.require_explain_token = true)
    (hp1 : is_paper_of p1 = false) (hp2 : is_paper_of p2 = false)
    (hok : (consume_explain_execution_token s u1 p1 (some t) now1).2.1 = true) :
    (consume_explain_execution_token
        (consumeMany (consume_explain_execution_token s u1 p1 (some t) now1).1 calls)
        u2 p2 (some t) now2).2.1 = false := by
  have h1 := consume_success_usedOrGone s u1 p1 t now1 hreq hp1 hok
  have h2 := consumeMany_preserves_usedOrGone calls _ t h1
  have hreq2 : (consumeMany (consume_explain_execution_token s u1 p1 (some t) now1).1
      calls).require_explain_token = true := by
    rw [consumeMany_preserves_require, consume_preserves_require, hreq]
  exact consume_fails_used _ u2 p2 t now2 hreq2 hp2 h2

/-- Witness for C3 at the concrete token store. -/
theorem consume_token_single_success_witness :
    (consume_explain_execution_token
        (consumeMany (consume_explain_execution_token tokState ("u1") p0 (some ("tk1")) 10).1 [])
        ("u1") p0 (some ("tk1")) 20).2.1 = false :=
  consume_token_single_success tokState ("u1") p0 ("tk1") 10 [] ("u1") p0 20 rfl rfl rfl
    (by with_unfolding_all rfl)

/-- Counterexample to claim C3 as stated: after a successful consumption of
tk1, a second call with the same token but a paper-trade proposal returns
success again (the token-required guard short-circuits before any token
check). -/
theorem consume_token_twice_cex :
    (consume_explain_execution_token tokState ("u1") p0 (some ("tk1")) 10).2.1 = true ∧
    (consume_explain_execution_token
        (consume_explain_execution_token tokState ("u1") p0 (some ("tk1")) 10).1
        ("u1") pPaper (some ("tk1")) 20).2.1 = true := by
  constructor
  · with_unfolding_all rfl
  · with_unfolding_all rfl

/-- A price alteration that survives 8-decimal rounding changes the trade
fingerprint. -/
theorem priceAltered_fingerprint_ne (q0 q1 : TradeParams) (halt : priceAltered q0 q1) :
    trade_fingerprint q0 ≠ trade_fingerprint q1 := by
  intro heq
  rcases halt with ⟨a, b, h1, h2, hne⟩ | ⟨a, b, h1, h2, hne⟩ | ⟨a, b, h1, h2, hne⟩
  · have hc := congrArg FingerprintPayload.entry_price heq
    simp only [trade_fingerprint, normalize_trade_fingerprint_payload, h1, h2,
      Option.map_some', normalizeVal, Option.some.injEq, PVal.fl.injEq] at hc
    exact hne hc
  · have hc := congrArg FingerprintPayload.stop_loss heq
    simp only [trade_fingerprint, normalize_trade_fingerprint_payload, h1, h2,
      Option.map_some', normalizeVal, Option.some.injEq, PVal.fl.injEq] at hc
    exact hne hc
  · have hc := congrArg FingerprintPayload.take_profit heq
    simp only [trade_fingerprint, normalize_trade_fingerprint_payload, h1, h2,
      Option.map_some', normalizeVal, Option.some.injEq, PVal.fl.injEq] at hc
    exact hne hc

/-- Claim C4 (amended): consuming an explain token with a price field whose
alteration changes the value rounded to 8 decimal places always fails with
a fingerprint mismatch; alterations below the rounding granularity produce
the same fingerprint and are accepted (see the counterexample). -/
theorem consume_altered_price_fails (s : EngineState) (u : String) (q0 p : TradeParams)
    (t : String) (td : TokenData) (now : ℚ)
    (hreq : s.require_explain_token = true) (hp : is_paper_of p = false)
    (hlk : lookupTok s.pending_explain_tokens t = some td)
    (hbind : td.fingerprint = trade_fingerprint q0)
    (halt : priceAltered q0 p) :
    (consume_explain_execution_token s u p (some t) now).2.1 = false :=
  consume_fails_fingerprint s u p t td now hreq hp hlk
    (by rw [hbind]; exact priceAltered_fingerprint_ne q0 p halt)

/-- Witness for C4: a one-cent entry-price alteration is rejected. -/
theorem consume_altered_price_fails_witness :
    (consume_explain_execution_token tokState ("u1") pCent (some ("tk1")) 10).2.1 = false :=
  consume_altered_price_fails tokState ("u1") p0 pCent ("tk1") tok0 10 rfl rfl
    (by with_unfolding_all rfl) rfl
    (Or.inl ⟨100, 100 + 1/100, rfl, rfl, of_decide_eq_true (by with_unfolding_all rfl)⟩)

/-- Counterexample to claim C4 as stated: altering the entry price by 10⁻¹¹
(a nonzero alteration) leaves the 8-decimal rounded fingerprint unchanged
and the consume call succeeds. -/
theorem consume_tiny_alteration_accepted_cex :
    to_float pTiny.entry_price 0 ≠ to_float p0.entry_price 0 ∧
    (consume_explain_execution_token tokState ("u1") pTiny (some ("tk1")) 10).2.1 = true := by
  constructor
  · exact of_decide_eq_true (by with_unfolding_all rfl)
  · with_unfolding_all rfl

/-- Claim C5 (amended): level full_auto is only reached by a probation
evaluation that passes with the wide strong margin; such a single
evaluation may take a manual user directly to full_auto (guarded_auto is
only assigned transiently inside the call, see the counterexample). -/
theorem probation_full_auto_needs_strong_pass (s : EngineState) (u : String)
    (paper : Option PaperSummary) (now : ℚ)
    (hafter : autonomyLevelD (evaluate_probation s u paper now).1 u = "full_auto")
    (hbefore : autonomyLevelD s u ≠ "full_auto") :
    ∃ ps, paper = some ps ∧ (evaluate_probation s u paper now).2.passed = true ∧
      strong_probation_margin (probationPolicyD s u) (extract_paper_metrics ps) = true := by
  unfold evaluate_probation at hafter ⊢
  unfold autonomyLevelD at hbefore
  cases hpol : s.probation_policy u <;>
    simp only [get_or_create_probation_policy, hpol] at hafter ⊢ <;>
    cases ha : s.autonomy_state u <;>
      simp only [get_or_create_autonomy_state, ha] at hafter hbefore ⊢ <;>
      cases paper with
  | none =>
    dsimp only at hafter ⊢
    rw [autonomyLevelD_setAutonomy] at hafter
    dsimp only at hafter
    exact absurd hafter hbefore
  | some ps =>
    dsimp only at hafter ⊢
    by_cases herr : truthy ps.error = true
    · rw [if_pos herr] at hafter ⊢
      rw [autonomyLevelD_setAutonomy] at hafter
      dsimp only at hafter
      exact absurd hafter hbefore
    · rw [if_neg herr] at hafter ⊢
      dsimp only at hafter ⊢
      rw [autonomyLevelD_setAutonomy] at hafter
      dsimp only at hafter
      split at hafter
      · rename_i hcond
        rw [Bool.and_eq_true] at hcond
        obtain ⟨hpassed, hstrong⟩ := hcond
        refine ⟨ps, rfl, ?_, ?_⟩
        · exact hpassed
        · simpa only [probationPolicyD, hpol, Option.getD] using hstrong
      · split at hafter
        · exact absurd hafter (by decide)
        · exact absurd hafter hbefore

/-- Witness for C5: the strong passing summary at manual state satisfies
the amended characterization. -/
theorem probation_full_auto_needs_strong_pass_witness :
    ∃ ps, (some ps0 : Option PaperSummary) = some ps ∧
      (evaluate_probation manualState ("u1") (some ps0) 0).2.passed = true ∧
      strong_probation_margin (probationPolicyD manualState ("u1"))
        (extract_paper_metrics ps) = true :=
  probation_full_auto_needs_strong_pass manualState ("u1") (some ps0) 0
    (by with_unfolding_all rfl) (of_decide_eq_true (by with_unfolding_all rfl))

/-- Counterexample to claim C5 as stated: one passing probation evaluation
with the strong margin takes the user straight from manual to full_auto. -/
theorem probation_manual_to_full_cex :
    autonomyLevelD manualState ("u1") = "manual" ∧
    autonomyLevelD (evaluate_probation manualState ("u1") (some ps0) 0).1 ("u1")
      = "full_auto" := by
  constructor
  · with_unfolding_all rfl
  · with_unfolding_all rfl

/-- Reading the window right after storing a state gives the window of the
stored state. -/
theorem windowD_setAutonomy (s : EngineState) (u : String) (st : AutonomyState) :
    windowD (setAutonomy s u st) u = st.recent_consensus_scores := by
  unfold windowD setAutonomy
  simp

/-- One assess call rolls the stored window by the consensus score of the
snapshot. -/
theorem windowD_assess (s : EngineState) (u : String) (d : DeepStudy) (now : ℚ) :
    windowD (assess_anomaly_and_drift s u (some d) now).1 u =
      roll_window (windowD s u) (to_float d.consensus_score 0) := by
  unfold assess_anomaly_and_drift
  cases ha : s.autonomy_state u <;>
    simp only [get_or_create_autonomy_state, ha] <;>
    repeat' split
  all_goals simp [windowD_setAutonomy, windowD, ha, setAutonomy]

/-- Rolling a constant-valued window with the same constant keeps every
element equal to that constant. -/
theorem roll_window_const (w : List ℚ) (c : ℚ) (hw : ∀ x ∈ w, x = c) :
    ∀ x ∈ roll_window w c, x = c := by
  intro x hx
  unfold roll_window at hx
  dsimp only at hx
  have hx2 : x ∈ w ++ [c] := by
    split at hx
    · exact List.mem_of_mem_drop hx
    · exact hx
  rcases List.mem_append.mp hx2 with h | h
  · exact hw x h
  · simpa using h

/-- The fold computing the Python max of a constant list returns the
constant. -/
theorem foldl_max_const (c : ℚ) (xs : List ℚ) :
    ∀ a, (∀ y ∈ xs, y = c) → a = c → xs.foldl max a = c := by
  induction xs with
  | nil => intro a _ ha; exact ha
  | cons y ys ih =>
    intro a hy ha
    have hyc : y = c := hy y (List.mem_cons_self y ys)
    refine ih (max a y) (fun z hz => hy z (List.mem_cons_of_mem y hz)) ?_
    rw [ha, hyc, max_self]

/-- The fold computing the Python min of a constant list returns the
constant. -/
theorem foldl_min_const (c : ℚ) (xs : List ℚ) :
    ∀ a, (∀ y ∈ xs, y = c) → a = c → xs.foldl min a = c := by
  induction xs with
  | nil => intro a _ ha; exact ha
  | cons y ys ih =>
    intro a hy ha
    have hyc : y = c := hy y (List.mem_cons_self y ys)
    refine ih (min a y) (fun z hz => hy z (List.mem_cons_of_mem y hz)) ?_
    rw [ha, hyc, min_self]

/-- The score range of a constant window is zero. -/
theorem score_range_const (w : List ℚ) (c : ℚ) (hw : ∀ x ∈ w, x = c) :
    score_range_of w = 0 := by
  unfold score_range_of
  cases w with
  | nil => simp
  | cons x xs =>
    have hx : x = c := hw x (List.mem_cons_self x xs)
    have hxs : ∀ y ∈ xs, y = c := fun y hy => hw y (List.mem_cons_of_mem x hy)
    simp only [List.isEmpty_cons, listMax, listMin]
    rw [foldl_max_const c xs x hxs hx, foldl_min_const c xs x hxs hx]
    simp

/-- The drift trigger never fires on a constant window. -/
theorem drift_const (w : List ℚ) (c : ℚ) (hw : ∀ x ∈ w, x = c) :
    drift_condition w = false := by
  unfold drift_condition
  rw [score_range_const w c hw]
  have h28 : ¬ ((0:ℚ) ≥ 28/100) := by norm_num
  simp [h28]

/-- Iterated assessments of the same snapshot keep every window element
equal to its consensus score. -/
theorem assess_iter_window_const (u : String) (d : DeepStudy) (now : ℚ) :
    ∀ (n : ℕ) (s : EngineState),
      (∀ x ∈ windowD s u, x = to_float d.consensus_score 0) →
      ∀ x ∈ windowD (assess_iter u (some d) now n s) u, x = to_float d.consensus_score 0 := by
  intro n
  induction n with
  | zero => intro s hw; exact hw
  | succ k ih =>
    intro s hw
    refine ih _ ?_
    rw [windowD_assess]
    exact roll_window_const _ _ hw

/-- Claim C8: starting from an empty rolling window, evaluating the same
unchanged snapshot any number of times never satisfies the drift condition
at the next evaluation: identical scores give a zero range, below the 0.28
threshold. -/
theorem repeated_snapshot_no_drift (s : EngineState) (u : String) (d : DeepStudy)
    (now : ℚ) (n : ℕ) (h : windowD s u = []) :
    drift_condition (roll_window (windowD (assess_iter u (some d) now n s) u)
      (to_float d.consensus_score 0)) = false := by
  have hbase : ∀ x ∈ windowD s u, x = to_float d.consensus_score 0 := by
    rw [h]
    intro x hx
    exact absurd hx (List.not_mem_nil x)
  have hall := assess_iter_window_const u d now n s hbase
  exact drift_const _ _ (roll_window_const _ _ hall)

/-- Witness for C8 at the empty engine state after three evaluations. -/
theorem repeated_snapshot_no_drift_witness :
    drift_condition (roll_window (windowD (assess_iter ("u1") (some d0) 0 3 emptyState) ("u1"))
      (to_float d0.consensus_score 0)) = false :=
  repeated_snapshot_no_drift emptyState ("u1") d0 0 3 rfl

/-- Creating the autonomy state does not change the dev-bypass flag. -/
theorem get_or_create_autonomy_bypass (s : EngineState) (u : String) :
    (get_or_create_autonomy_state s u).1.allow_dev_probation_bypass =
      s.allow_dev_probation_bypass := by
  unfold get_or_create_autonomy_state
  split <;> rfl

/-- Creating the risk budget does not change the dev-bypass flag. -/
theorem get_or_create_budget_bypass (s : EngineState) (u : String) :
    (get_or_create_risk_budget s u).1.allow_dev_probation_bypass =
      s.allow_dev_probation_bypass := by
  unfold get_or_create_risk_budget
  split <;> rfl

/-- The budget transition does not change the dev-bypass flag. -/
theorem apply_budget_bypass (s : EngineState) (u wk : String) :
    (apply_budget_and_autonomy s u wk).allow_dev_probation_bypass =
      s.allow_dev_probation_bypass := by
  unfold apply_budget_and_autonomy setAutonomy
  dsimp only
  rw [get_or_create_autonomy_bypass, get_or_create_budget_bypass]

/-- Every branch of the tail of can_execute_autonomous_trade reports the
probation result it was given. -/
theorem exec_after_probation_probation (s : EngineState) (u : String) (p : TradeParams)
    (deep : Option DeepStudy) (now : ℚ) (budget : RiskBudget) (pr0 : ProbationResult) :
    (exec_after_probation s u p deep now budget pr0).2.probation = some pr0 := by
  unfold exec_after_probation
  dsimp only
  split
  · rfl
  · split <;> rfl

/-- Elimination for a two-guard decision chain: the reported probation
result comes from one of its three branches. -/
theorem ite_chain3_probation (A B : Prop) [Decidable A] [Decidable B]
    (a b c : EngineState × ExecDecision) (pr : ProbationResult)
    (h : (ite A a (ite B b c)).2.probation = some pr) :
    a.2.probation = some pr ∨ b.2.probation = some pr ∨ c.2.probation = some pr := by
  by_cases hA : A
  · rw [if_pos hA] at h
    exact Or.inl h
  · rw [if_neg hA] at h
    by_cases hB : B
    · rw [if_pos hB] at h
      exact Or.inr (Or.inl h)
    · rw [if_neg hB] at h
      exact Or.inr (Or.inr h)

/-- Claim C9: with the dev probation bypass enabled through the environment
(ALLOW_DEV_PROBATION_BYPASS true, or DEBUG true when it is unset) and a
user id starting with dev_, a non-paper call of can_execute_autonomous_trade
ignores the paper summary entirely and records probation as passed with the
dev-bypass reason. -/
theorem dev_bypass_no_paper_eval (s : EngineState) (u : String) (p : TradeParams)
    (ps1 ps2 : Option PaperSummary) (deep : Option DeepStudy) (now : ℚ) (wk : String)
    (allow_env debug_env : Option String)
    (hcfg : s.allow_dev_probation_bypass = dev_probation_bypass_from_env allow_env debug_env)
    (henv : (∃ v, allow_env = some v ∧ v.toLower = "true") ∨
            (allow_env = none ∧ ∃ v, debug_env = some v ∧ v.toLower = "true"))
    (hdev : u.startsWith ("dev_") = true)
    (hp : is_paper_of p = false) :
    can_execute_autonomous_trade s u p ps1 deep now wk =
      can_execute_autonomous_trade s u p ps2 deep now wk ∧
    ∀ pr, (can_execute_autonomous_trade s u p ps1 deep now wk).2.probation = some pr →
      pr = { passed := true, reason := "Dev probation bypass enabled", dev_bypass := true } := by
  have hby : s.allow_dev_probation_bypass = true := by
    rw [hcfg]
    rcases henv with ⟨v, hv, hvt⟩ | ⟨hnone, v, hv, hvt⟩
    · simp [dev_probation_bypass_from_env, hv, hvt]
    · simp [dev_probation_bypass_from_env, hnone, hv, hvt]
  constructor
  · unfold can_execute_autonomous_trade
    simp only [hp, setAutonomy, apply_budget_bypass, get_or_create_autonomy_bypass,
      get_or_create_budget_bypass, hby, hdev, Bool.and_self, Bool.false_eq_true,
      if_false, eq_self_iff_true, if_true]
  · intro pr hpr
    unfold can_execute_autonomous_trade at hpr
    simp only [hp, setAutonomy, apply_budget_bypass, get_or_create_autonomy_bypass,
      get_or_create_budget_bypass, hby, hdev, Bool.and_self, Bool.false_eq_true,
      if_false, eq_self_iff_true, if_true] at hpr
    rcases ite_chain3_probation _ _ _ _ _ _ hpr with h | h | h
    · exact Option.noConfusion (show (none : Option ProbationResult) = some pr from h)
    · exact Option.noConfusion (show (none : Option ProbationResult) = some pr from h)
    · rw [exec_after_probation_probation] at h
      cases h
      rfl

/-- Witness for C9: with ALLOW_DEV_PROBATION_BYPASS=true and user dev_u,
two different paper summaries give identical decisions and the recorded
probation is the dev-bypass pass. -/
theorem dev_bypass_no_paper_eval_witness :
    can_execute_autonomous_trade devState ("dev_u") p0 (some ps0) none 0 ("wk") =
      can_execute_autonomous_trade devState ("dev_u") p0 none none 0 ("wk") ∧
    ∀ pr, (can_execute_autonomous_trade devState ("dev_u") p0 (some ps0) none 0 ("wk")).2.probation
        = some pr →
      pr = { passed := true, reason := "Dev probation bypass enabled", dev_bypass := true } :=
  dev_bypass_no_paper_eval devState ("dev_u") p0 (some ps0) none none 0 ("wk")
    (some ("true")) none rfl (Or.inl ⟨"true", rfl, by with_unfolding_all rfl⟩)
    (by with_unfolding_all rfl) rfl

/-- Claim C10: when the proposal supplies no parseable non-negative
risk_percent and its entry price or stop loss is absent or non-positive,
can_execute_autonomous_trade computes an effective risk of 0, so the
max-risk-per-trade gate passes for every positive budget. -/
theorem risk_percent_defaults_to_zero (p : TradeParams)
    (h1 : to_float p.risk_percent (-1) < 0)
    (h2 : to_float p.entry_price 0 ≤ 0 ∨ to_float p.stop_loss 0 ≤ 0) :
    effective_risk_percent p = 0 ∧
      ∀ m : ℚ, 0 < m → ¬ (effective_risk_percent p > m) := by
  have hz : effective_risk_percent p = 0 := by
    unfold effective_risk_percent
    rw [if_pos h1, if_neg]
    intro hpos
    rcases h2 with h | h
    · exact absurd hpos.1 (not_lt.mpr h)
    · exact absurd hpos.2 (not_lt.mpr h)
  refine ⟨hz, ?_⟩
  intro m hm
  rw [hz]
  exact not_lt.mpr (le_of_lt hm)

/-- Witness for C10 at the empty proposal. -/
theorem risk_percent_defaults_to_zero_witness :
    effective_risk_percent {} = 0 ∧
      ∀ m : ℚ, 0 < m → ¬ (effective_risk_percent {} > m) :=
  risk_percent_defaults_to_zero {} (by norm_num [to_float]) (Or.inl (by norm_num [to_float]))

/-- Claim C1 (amended): activate_kill_switch sets the kill-switch flag of
the user, marks every open trade closed_emergency and reports their count,
and records kill_switch_triggered in the daily stats of the user when they
exist; it does not touch the autonomy states, so paused and level keep
their prior values for every user. -/
theorem activate_kill_switch_effects (s : EngineState) (u : String) (now : ℚ) :
    (activate_kill_switch s u now).1.kill_switch_active u = true ∧
    (activate_kill_switch s u now).1.autonomy_state = s.autonomy_state ∧
    (activate_kill_switch s u now).1.active_trades u =
      (s.active_trades u).map
        (fun t => if t.status = "open" then { t with status := "closed_emergency" } else t) ∧
    (activate_kill_switch s u now).1.daily_stats u =
      (s.daily_stats u).map (fun d => { d with kill_switch_triggered := true }) ∧
    (activate_kill_switch s u now).2.trades_emergency_closed =
      ((s.active_trades u).filter (fun t => t.status == "open")).length := by
  unfold activate_kill_switch
  cases hd : s.daily_stats u <;> simp [hd]

/-- Counterexample to claim C1 as stated: from a state at level full_auto
with an open position, activating the kill switch leaves the autonomy state
with paused = false and level = full_auto. -/
theorem kill_switch_autonomy_untouched_cex :
    autonomyPausedD (activate_kill_switch fullState ("u1") 0).1 ("u1") = false ∧
    autonomyLevelD (activate_kill_switch fullState ("u1") 0).1 ("u1") = "full_auto" := by
  constructor <;> rfl

/-- Clearing a budget pause never changes the level. -/
theorem clear_budget_pause_level (st : AutonomyState) :
    (clear_budget_pause st).level = st.level := by
  unfold clear_budget_pause
  split <;> (dsimp only; split <;> rfl)

/-- The soft downgrade leaves the level or demotes one step. -/
theorem soft_downgrade_level (st1 : AutonomyState) (near : Bool) :
    (soft_downgrade st1 near).level = st1.level ∨
    (st1.level = "full_auto" ∧ (soft_downgrade st1 near).level = "guarded_auto") ∨
    (st1.level = "guarded_auto" ∧ (soft_downgrade st1 near).level = "assisted") := by
  unfold soft_downgrade
  split_ifs <;> simp_all

/-- The budget transition leaves the level, demotes it one step from
full_auto or guarded_auto, or forces assisted. -/
theorem apply_budget_to_state_level (budget : RiskBudget) (st : AutonomyState)
    (dp md wp : ℚ) :
    (apply_budget_to_state budget st dp md wp).level = "assisted" ∨
    (apply_budget_to_state budget st dp md wp).level = st.level ∨
    (st.level = "full_auto" ∧ (apply_budget_to_state budget st dp md wp).level = "guarded_auto") ∨
    (st.level = "guarded_auto" ∧ (apply_budget_to_state budget st dp md wp).level = "assisted") := by
  unfold apply_budget_to_state
  split_ifs with hd hw hm
  · left; rfl
  · left; rfl
  · left; rfl
  · rcases soft_downgrade_level (clear_budget_pause st)
        (decide (dp ≤ -(7 / 10 * budget.daily_loss_limit_percent)) ||
          decide (wp ≤ -(7 / 10 * budget.weekly_loss_limit_percent)) ||
          decide (md ≥ 7 / 10 * budget.max_drawdown_percent)) with h | ⟨ha, hb⟩ | ⟨ha, hb⟩
    · rw [clear_budget_pause_level] at h
      exact Or.inr (Or.inl h)
    · rw [clear_budget_pause_level] at ha
      exact Or.inr (Or.inr (Or.inl ⟨ha, hb⟩))
    · rw [clear_budget_pause_level] at ha
      exact Or.inr (Or.inr (Or.inr ⟨ha, hb⟩))

/-- Claim C2 (amended): the Risk Budget Tracker transition never raises the
autonomy level above assisted (its only upward move is manual to assisted
when a budget breach forces the paused assisted state), and the Anomaly and
Drift Monitor never raises the level at all. -/
theorem level_rank_le_of_apply (budget : RiskBudget) (st : AutonomyState) (dp md wp : ℚ) :
    level_rank (apply_budget_to_state budget st dp md wp).level ≤
      max (level_rank st.level) 1 := by
  rcases apply_budget_to_state_level budget st dp md wp with h | h | ⟨h1, h2⟩ | ⟨h1, h2⟩
  · rw [h, show level_rank ("assisted") = 1 from rfl]
    exact le_max_right _ _
  · rw [h]
    exact le_max_left _ _
  · rw [h2, h1]
    decide
  · rw [h2, h1]
    decide

/-- The anomaly transition never raises the level: it only demotes full_auto
to guarded_auto on a trigger. -/
theorem level_rank_le_assess (s : EngineState) (u : String) (deep : Option DeepStudy)
    (now : ℚ) :
    level_rank (autonomyLevelD (assess_anomaly_and_drift s u deep now).1 u) ≤
      level_rank (autonomyLevelD s u) := by
  unfold assess_anomaly_and_drift
  cases ha : s.autonomy_state u <;> cases deep <;>
    simp only [get_or_create_autonomy_state, ha] <;>
    repeat' split
  all_goals
    simp_all +decide [autonomyLevelD_setAutonomy, autonomyLevelD, level_rank, setAutonomy]

/-- Claim C2 (amended): the Risk Budget Tracker transition never raises the
autonomy level above assisted (its only upward move is manual to assisted
when a budget breach forces the paused assisted state), and the Anomaly and
Drift Monitor never raises the level at all. -/
theorem budget_and_anomaly_never_promote (s : EngineState) (u wk : String) :
    level_rank (autonomyLevelD (apply_budget_and_autonomy s u wk) u) ≤
      max (level_rank (autonomyLevelD s u)) 1 ∧
    ∀ deep now, level_rank (autonomyLevelD (assess_anomaly_and_drift s u deep now).1 u) ≤
      level_rank (autonomyLevelD s u) := by
  constructor
  · unfold apply_budget_and_autonomy
    cases hb : s.risk_budgets u <;> cases ha : s.autonomy_state u <;>
      simp only [get_or_create_risk_budget, get_or_create_autonomy_state, hb, ha] <;>
      rw [autonomyLevelD_setAutonomy] <;>
      simp only [autonomyLevelD, ha] <;>
      exact level_rank_le_of_apply _ _ _ _ _
  · intro deep now
    exact level_rank_le_assess s u deep now

/-- Claim C7 (amended): validate_trade writes no engine state, and its
result is a function of the proposal together with the RiskLimits, the
kill-switch flag, the broker fail-safe policy flag, the open-position count
and the daily stats of the caller. -/
theorem validate_trade_frame (s1 s2 : EngineState) (u : String) (p : TradeParams)
    (hl : s1.user_limits u = s2.user_limits u)
    (hk : s1.kill_switch_active u = s2.kill_switch_active u)
    (hb : s1.require_broker_fail_safe = s2.require_broker_fail_safe)
    (ha : (s1.active_trades u).length = (s2.active_trades u).length)
    (hd : s1.daily_stats u = s2.daily_stats u) :
    (∀ s0 u0 q, (validate_trade s0 u0 q).1 = s0) ∧
    (validate_trade s1 u p).2 = (validate_trade s2 u p).2 := by
  constructor
  · intro s0 u0 q
    rfl
  · unfold validate_trade validate_trade_check
    rw [hl, hk, hb, ha, hd]

/-- Counterexample to claim C7 as stated: two states agreeing on the RiskLimits
of the user but differing on the kill-switch flag give opposite results for
the same proposal, so the result is not a function of proposal and limits
alone. -/
theorem validate_trade_not_pure_cex :
    valState.user_limits ("u1") = killState.user_limits ("u1") ∧
    (validate_trade valState ("u1") p0).2.1 = true ∧
    (validate_trade killState ("u1") p0).2.1 = false :=
  ⟨rfl, by with_unfolding_all rfl, by with_unfolding_all rfl⟩

/-- Witness for C7 at two literally equal states. -/
theorem validate_trade_frame_witness :
    (∀ s0 u0 q, (validate_trade s0 u0 q).1 = s0) ∧
    (validate_trade valState ("u1") p0).2 = (validate_trade valState ("u1") p0).2 :=
  validate_trade_frame valState valState ("u1") p0 rfl rfl rfl rfl rfl

/-- Passing a guard means its condition is false and the rest of the chain
passed. -/
theorem failGuard_true (c : Prop) [inst : Decidable c] (m : String) (next : Bool × String)
    (h : (failGuard c m next).1 = true) : ¬c ∧ next.1 = true := by
  unfold failGuard at h
  split at h
  · exact absurd (show false = true from h) Bool.false_ne_true
  · rename_i hc
    exact ⟨hc, h⟩

/-- Claim C6: validate_trade passes only when a BUY proposal satisfies
stop_loss < entry_price < take_profit and a SELL proposal satisfies
take_profit < entry_price < stop_loss, over the parsed price values. -/
theorem validate_trade_ordering (s : EngineState) (u : String) (p : TradeParams)
    (h : (validate_trade s u p).2.1 = true) :
    ((pyStr (p.action.getD (PVal.strv ("")))).toUpper = "BUY" →
      to_float p.stop_loss 0 < to_float p.entry_price 0 ∧
        to_float p.entry_price 0 < to_float p.take_profit 0) ∧
    ((pyStr (p.action.getD (PVal.strv ("")))).toUpper = "SELL" →
      to_float p.take_profit 0 < to_float p.entry_price 0 ∧
        to_float p.entry_price 0 < to_float p.stop_loss 0) := by
  replace h : (validate_trade_check s u p).1 = true := h
  unfold validate_trade_check at h
  cases hl : s.user_limits u with
  | none =>
    rw [hl] at h
    exact absurd (show false = true from h) Bool.false_ne_true
  | some limits =>
    rw [hl] at h
    obtain ⟨hg1, h⟩ := failGuard_true _ _ _ h
    obtain ⟨hg2, h⟩ := failGuard_true _ _ _ h
    obtain ⟨hg3, h⟩ := failGuard_true _ _ _ h
    obtain ⟨hg4, h⟩ := failGuard_true _ _ _ h
    obtain ⟨hg5, h⟩ := failGuard_true _ _ _ h
    obtain ⟨hg6, h⟩ := failGuard_true _ _ _ h
    obtain ⟨hg7, h⟩ := failGuard_true _ _ _ h
    obtain ⟨hg8, h⟩ := failGuard_true _ _ _ h
    obtain ⟨hg9, h⟩ := failGuard_true _ _ _ h
    constructor
    · intro hb
      by_cases hord : to_float p.stop_loss 0 < to_float p.entry_price 0 ∧
          to_float p.entry_price 0 < to_float p.take_profit 0
      · exact hord
      · exact absurd ⟨hb, hord⟩ hg8
    · intro hsell
      have hne : ¬ ((pyStr (p.action.getD (PVal.strv ("")))).toUpper = "BUY") := by
        intro hb
        exact absurd (hb.symm.trans hsell) (by decide)
      by_cases hord : to_float p.take_profit 0 < to_float p.entry_price 0 ∧
          to_float p.entry_price 0 < to_float p.stop_loss 0
      · exact hord
      · exact absurd ⟨hne, hord⟩ hg9

/-- Witness for C6: a concrete passing BUY proposal, whose prices satisfy
the ordering. -/
theorem validate_trade_ordering_witness :
    ((pyStr (p0.action.getD (PVal.strv ("")))).toUpper = "BUY" →
      to_float p0.stop_loss 0 < to_float p0.entry_price 0 ∧
        to_float p0.entry_price 0 < to_float p0.take_profit 0) ∧
    ((pyStr (p0.action.getD (PVal.strv ("")))).toUpper = "SELL" →
      to_float p0.take_profit 0 < to_float p0.entry_price 0 ∧
        to_float p0.entry_price 0 < to_float p0.stop_loss 0) :=
  validate_trade_ordering valState ("u1") p0 (by with_unfolding_all rfl)

/-- Counterexample to claim C2 as stated: from level manual with a breached
daily loss budget, the Risk Budget Tracker raises the level to assisted. -/
theorem budget_promotes_manual_cex :
    autonomyLevelD breachState ("u1") = "manual" ∧
    autonomyLevelD (apply_budget_and_autonomy breachState ("u1") ("2026-W41")) ("u1")
      = "assisted" ∧
    level_rank ("manual") < level_rank ("assisted") := by
  refine ⟨rfl, ?_, by decide⟩
  with_unfolding_all rfl

end RiskGov
